import Mathlib

/-!
Shallow embedding of the `maily` crate (library `src/lib.rs`, `src/pgp.rs`)
and its CLI (`cli/src/util.rs`, `cli/src/main.rs`), together with theorems
settling the specification claims about delivery orchestration and the
filter pipeline.

External collaborators (SMTP transport, address parsing, MIME assembly,
OpenPGP primitives, OS process spawning) are abstracted into environment
records of (possibly fallible) functions; the control flow, error-context
wrapping and trace of observable actions follow the Rust source.
-/

namespace Maily

/-! ### anyhow-style error chains

An `anyhow::Error` is modelled as its cause chain, outermost context
first.  `Error::context` pushes a new outermost entry; `Display` shows
only the outermost entry; `{err:?}` (Debug) renders the whole chain. -/

/-- An error's cause chain, outermost context first (`anyhow::Error`). -/
abbrev ErrChain := List String

/-- `anyhow`'s `Display` for an error: the outermost message only. -/
def errDisplay (e : ErrChain) : String := e.headD ""

/-- `anyhow`'s `Debug` rendering of an error: the outermost message
followed by the chain of causes (models `format!("\x7berr:?\x7d")`). -/
def debugRender : ErrChain → String
  | [] => ""
  | m :: rest =>
    if rest.isEmpty then m
    else m ++ "\n\nCaused by:\n" ++ String.intercalate "\n" rest

/-- UTF-8 encoding of one character. -/
def charUtf8 (c : Char) : List Nat :=
  let n := c.toNat
  if n < 128 then [n]
  else if n < 2048 then [192 + n / 64, 128 + n % 64]
  else if n < 65536 then [224 + n / 4096, 128 + (n / 64) % 64, 128 + n % 64]
  else [240 + n / 262144, 128 + (n / 4096) % 64, 128 + (n / 64) % 64, 128 + n % 64]

/-- `str::as_bytes`: the UTF-8 bytes of a string. -/
def strToBytes (s : String) : List Nat := s.data.flatMap charUtf8

/-- `str::trim_end`: drop trailing whitespace. -/
def trimEnd (s : String) : String :=
  String.mk (s.data.reverse.dropWhile Char.isWhitespace).reverse

/-- Boolean success test for `Except` (Rust's `Result::is_ok`). -/
def exOk {ε α : Type} : Except ε α → Bool
  | .ok _ => true
  | .error _ => false

deriving instance DecidableEq for Except

/-! ### Data model (`src/config.rs`) -/

/-- `SmtpMode` from `src/config.rs`. -/
inductive SmtpMode
  | Unencrypted
  | StartTls
  | Tls
deriving DecidableEq, Repr

/-- `Account` from `src/config.rs` (the `from` field is named `fromAddr`
because `from` is a Lean keyword). -/
structure Account where
  smtp_host : String
  smtp_mode : SmtpMode
  fromAddr : String
  user : String
  password : String
deriving DecidableEq, Repr

/-- `EmailOpts` from `src/lib.rs`; the keybox path is kept as a string. -/
structure EmailOpts where
  pgp_keybox : Option String
deriving DecidableEq, Repr

/-- The body of a composed `lettre` message as assembled by
`try_send_email`: the PGP `multipart/encrypted` form, or a plain
string/binary body (`MaybeString`). -/
inductive EmailBody
  | encrypted (armored : String)
  | plainString (s : String)
  | plainBinary (b : List Nat)
deriving DecidableEq, Repr

/-- A composed message handed to the transport.  `contentType` is the
resolved content type used for the (inner) body part. -/
structure Email where
  fromAddr : String
  subject : String
  recipients : List String
  contentType : String
  body : EmailBody
deriving DecidableEq, Repr

/-- Observable actions performed inside one `try_send_email` call. -/
inductive Event
  | encryptCall (message : List Nat) (keybox : String) (recipients : List String)
  | sendCall (host : String) (email : Email)
deriving DecidableEq, Repr

/-- Environment of external collaborators used by `try_send_email`:
address parsing, content-type parsing, SMTP relay construction, MIME
formatting, PGP encryption, UTF-8 decoding, message assembly, and the
transport's `send`.  Fallible calls return the `Display` text of the
underlying error. -/
structure Env where
  parseMailbox : String → Except String Unit
  parseContentType : String → Except String Unit
  buildRelay : String → Except String Unit
  mimeFormat : String → List Nat → List Nat
  encryptFn : List Nat → String → List String → Except String (List Nat)
  utf8Decode : List Nat → Except String String
  buildMessage : Email → Except String Unit
  send : Account → Email → Except String Unit

/-- The `To` parsing loop of `try_send_email`. -/
def parseRecipients (env : Env) : List String → Except ErrChain Unit
  | [] => Except.ok ()
  | r :: rest =>
    match env.parseMailbox r with
    | .error e => Except.error ["failed to parse 'To' specification: `" ++ r ++ "`", e]
    | .ok _ => parseRecipients env rest

/-- Construction of the SMTP mailer in `try_send_email`: only the TLS and
STARTTLS relay builders are fallible. -/
def buildMailer (env : Env) (account : Account) : Except ErrChain Unit :=
  match account.smtp_mode with
  | .Unencrypted => Except.ok ()
  | .Tls =>
    match env.buildRelay account.smtp_host with
    | .error e => Except.error ["failed to create TLS SMTP mailer", e]
    | .ok _ => Except.ok ()
  | .StartTls =>
    match env.buildRelay account.smtp_host with
    | .error e => Except.error ["failed to create STARTTLS SMTP mailer", e]
    | .ok _ => Except.ok ()

/-- `try_send_email` from `src/lib.rs`: parse `From`, resolve the content
type (default `text/plain`), parse all recipients, build the mailer,
assemble the body (PGP-encrypting it when a keybox is configured), and
hand the message to the transport.  Returns the result together with the
trace of encryption/transport events. -/
def try_send_email (env : Env) (account : Account) (subject : String)
    (message : List Nat) (content_type : Option String)
    (recipients : List String) (opts : EmailOpts) :
    Except ErrChain Unit × List Event :=
  match env.parseMailbox account.fromAddr with
  | .error e =>
    (Except.error ["failed to parse 'From' specification: `" ++ account.fromAddr ++ "`", e], [])
  | .ok _ =>
    let ctR : Except ErrChain String :=
      match content_type with
      | some ct =>
        match env.parseContentType ct with
        | .error e =>
          Except.error ["failed to parse content type specification `" ++ ct ++ "`", e]
        | .ok _ => Except.ok ct
      | none => Except.ok "text/plain"
    match ctR with
    | .error e => (Except.error e, [])
    | .ok ct =>
      match parseRecipients env recipients with
      | .error e => (Except.error e, [])
      | .ok _ =>
        match buildMailer env account with
        | .error e => (Except.error e, [])
        | .ok _ =>
          match opts.pgp_keybox with
          | some keybox =>
            let inner := env.mimeFormat ct message
            let ev0 := Event.encryptCall inner keybox recipients
            match env.encryptFn inner keybox recipients with
            | .error e => (Except.error ["failed to encrypt message", e], [ev0])
            | .ok armored =>
              match env.utf8Decode armored with
              | .error e =>
                (Except.error ["PGP encrypted message is not a valid UTF-8 string", e], [ev0])
              | .ok armoredStr =>
                match env.parseContentType "application/pgp-encrypted" with
                | .error e =>
                  (Except.error
                    ["failed to parse 'application/pgp-encrypted' content type header", e], [ev0])
                | .ok _ =>
                  match env.parseContentType "application/octet-stream; name=\"encrypted.asc\"" with
                  | .error e =>
                    (Except.error
                      ["failed to parse 'application/octet-stream' content type header", e], [ev0])
                  | .ok _ =>
                    let email : Email :=
                      ⟨account.fromAddr, subject, recipients, ct, EmailBody.encrypted armoredStr⟩
                    match env.buildMessage email with
                    | .error e => (Except.error ["failed to create email message", e], [ev0])
                    | .ok _ =>
                      match env.send account email with
                      | .error e =>
                        (Except.error ["failed to send email via " ++ account.smtp_host, e],
                          [ev0, Event.sendCall account.smtp_host email])
                      | .ok _ => (Except.ok (), [ev0, Event.sendCall account.smtp_host email])
          | none =>
            let body : EmailBody :=
              match env.utf8Decode message with
              | .ok s => EmailBody.plainString s
              | .error _ => EmailBody.plainBinary message
            let email : Email := ⟨account.fromAddr, subject, recipients, ct, body⟩
            match env.buildMessage email with
            | .error e => (Except.error ["failed to create email message", e], [])
            | .ok _ =>
              match env.send account email with
              | .error e =>
                (Except.error ["failed to send email via " ++ account.smtp_host, e],
                  [Event.sendCall account.smtp_host email])
              | .ok _ => (Except.ok (), [Event.sendCall account.smtp_host email])

/-! ### The delivery loop of `send_email` -/

/-- Whether a `try_send_email` call was the best-effort error
notification or the primary delivery. -/
inductive CallKind
  | notification
  | primary
deriving DecidableEq, Repr

/-- One `try_send_email` invocation performed by `send_email`, with its
arguments, result and inner events. -/
structure Call where
  kind : CallKind
  account : Account
  subject : String
  message : List Nat
  content_type : Option String
  recipients : List String
  result : Except ErrChain Unit
  events : List Event
deriving DecidableEq, Repr

/-- The account loop of `send_email` from `src/lib.rs`, over the
already-shuffled visitation order, carrying `overall_result`.  Returns
the final result and the trace of `try_send_email` calls. -/
def sendLoop (env : Env) (subject : String) (message : List Nat)
    (content_type : Option String) (recipients : List String) (opts : EmailOpts) :
    List Account → Except ErrChain Unit → Except ErrChain Unit × List Call
  | [], overall => (overall, [])
  | a :: rest, overall =>
    let notif : List Call :=
      match overall with
      | .error err =>
        let body := strToBytes (debugRender err)
        let r := try_send_email env a "email error" body none recipients opts
        [⟨CallKind.notification, a, "email error", body, none, recipients, r.fst, r.snd⟩]
      | .ok _ => []
    let r := try_send_email env a subject message content_type recipients opts
    let c : Call :=
      ⟨CallKind.primary, a, subject, message, content_type, recipients, r.fst, r.snd⟩
    match r.fst with
    | .ok _ => (Except.ok (), notif ++ [c])
    | .error err =>
      let overall2 : Except ErrChain Unit :=
        match overall with
        | .error oerr => Except.error (errDisplay err :: oerr)
        | .ok _ => Except.error err
      let rec2 := sendLoop env subject message content_type recipients opts rest overall2
      (rec2.fst, notif ++ c :: rec2.snd)

/-- `send_email` from `src/lib.rs`, taking the post-shuffle visitation
order as its account list. -/
def send_email (env : Env) (accounts : List Account) (subject : String)
    (message : List Nat) (content_type : Option String)
    (recipients : List String) (opts : EmailOpts) :
    Except ErrChain Unit × List Call :=
  sendLoop env subject message content_type recipients opts accounts (Except.ok ())

/-! ### Filter pipeline (`cli/src/util.rs`) -/

/-- `std::process::ExitStatus`, distinguishing an exit code from
termination by signal. -/
inductive ExitStatus
  | exited (code : Int)
  | signaled
deriving DecidableEq, Repr

/-- `ExitStatus::success`. -/
def ExitStatus.success : ExitStatus → Bool
  | .exited c => c == 0
  | .signaled => false

/-- `ExitStatus::code`. -/
def ExitStatus.exitCode : ExitStatus → Option Int
  | .exited c => some c
  | .signaled => none

/-- `std::process::Output` as consumed by `evaluate`: the exit status and
the (lossily decoded) captured standard-error text. -/
structure Output where
  status : ExitStatus
  stderr : String
deriving DecidableEq, Repr

/-- `concat_command` from `cli/src/util.rs`: command and arguments joined
by single spaces. -/
def concat_command (command : String) (args : List String) : String :=
  args.foldl (fun cmd arg => cmd ++ " " ++ arg) command

/-- `format_command` from `cli/src/util.rs` (`to_string_lossy` is the
identity on our string model). -/
def format_command (command : String) (args : List String) : String :=
  concat_command command args

/-- `evaluate` from `cli/src/util.rs`: fault a process whose exit status
is unsuccessful, formatting the exit code (or a signal notice) and the
trimmed captured stderr. -/
def evaluate (output : Output) (command : String) (args : List String) :
    Except ErrChain Unit :=
  if output.status.success then Except.ok ()
  else
    let code :=
      match output.status.exitCode with
      | some c => " (" ++ toString c ++ ")"
      | none => " (terminated by signal)"
    let stderrT := trimEnd output.stderr
    let stderrS := if stderrT ≠ "" then ": " ++ stderrT else ""
    Except.error
      ["`" ++ format_command command args ++ "` reported non-zero exit-status" ++ code ++ stderrS]

/-- The identity of one concurrent task spawned by `pipeline`: the
stdin writer, the stdout reader, or the waiter of process `i`. -/
inductive TaskId
  | writer
  | reader
  | waiter (i : Nat)
deriving DecidableEq, Repr

/-- Environment-prescribed behaviour of one spawned process: the outcome
of `wait_with_output` and the captured `Output`. -/
structure ProcSpec where
  waitResult : Except String Unit
  output : Output
deriving DecidableEq, Repr

/-- Environment for the pipeline: spawn outcomes per stage, process
behaviours, the outcomes of the stdin write and stdout read tasks, and
the bytes the reader task captures. -/
structure PEnv where
  spawnResult : Nat → Except String Unit
  procs : Nat → ProcSpec
  writeResult : Except String Unit
  readResult : Except String Unit
  readOutput : List Nat

/-- The result of each concurrent task in `pipeline`: the write future,
the read future, and one `wait_with_output`-then-`evaluate` future per
process. -/
def taskResult (env : PEnv) (chain : List (String × List String)) :
    TaskId → Except ErrChain Unit
  | .writer =>
    match env.writeResult with
    | .error e => Except.error ["failed to write input to stdin", e]
    | .ok _ => Except.ok ()
  | .reader =>
    match env.readResult with
    | .error e => Except.error ["failed to read data from stdout", e]
    | .ok _ => Except.ok ()
  | .waiter i =>
    match chain[i]? with
    | none => Except.ok ()
    | some (cmd, args) =>
      match (env.procs i).waitResult with
      | .error e => Except.error ["failed to wait for `" ++ format_command cmd args ++ "`", e]
      | .ok _ => evaluate (env.procs i).output cmd args

/-- `FuturesUnordered` + `try_for_each_concurrent`: task completions are
observed in schedule order; the first error observed is returned at once
and the remaining tasks are not driven to completion.  Returns the
result and the tasks whose completion was observed. -/
def observeTasks (res : TaskId → Except ErrChain Unit) :
    List TaskId → Except ErrChain Unit × List TaskId
  | [] => (Except.ok (), [])
  | t :: rest =>
    match res t with
    | .error e => (Except.error e, [t])
    | .ok _ =>
      let r := observeTasks res rest
      (r.fst, t :: r.snd)

/-- The spawn loop of `pipeline`: spawn each stage in chain order,
stopping at the first spawn failure.  Returns the loop's outcome and the
number of processes spawned. -/
def spawnGo (env : PEnv) : Nat → List (String × List String) → Except ErrChain Unit × Nat
  | _, [] => (Except.ok (), 0)
  | i, (cmd, args) :: rest =>
    match env.spawnResult i with
    | .error e =>
      (Except.error ["failed to run `" ++ format_command cmd args ++ "`", e], 0)
    | .ok _ =>
      let r := spawnGo env (i + 1) rest
      (r.fst, r.snd + 1)

/-- The outcome of a `pipeline` call: its result, how many processes
were spawned, and which tasks were driven to completion. -/
structure PipelineResult where
  result : Except ErrChain (List Nat)
  spawned : Nat
  driven : List TaskId
deriving DecidableEq, Repr

/-- The full task set of a pipeline over `n` processes. -/
def allTasks (n : Nat) : List TaskId :=
  TaskId.writer :: TaskId.reader :: (List.range n).map TaskId.waiter

/-- `pipeline` from `cli/src/util.rs`.  An empty chain returns the input
unchanged without spawning; otherwise all stages are spawned, the writer,
reader and waiter tasks run concurrently, their completions being
observed in the order given by `sched` (a permutation of the task set
chosen by the scheduler), and the first observed error becomes the
pipeline's error. -/
def pipelineRun (env : PEnv) (input : List Nat)
    (chain : List (String × List String)) (sched : List TaskId) : PipelineResult :=
  match chain with
  | [] => ⟨Except.ok input, 0, []⟩
  | _ :: _ =>
    let sp := spawnGo env 0 chain
    match sp.fst with
    | .error e => ⟨Except.error e, sp.snd, []⟩
    | .ok _ =>
      let ob := observeTasks (taskResult env chain) sched
      match ob.fst with
      | .error e => ⟨Except.error e, chain.length, ob.snd⟩
      | .ok _ => ⟨Except.ok env.readOutput, chain.length, ob.snd⟩

/-! ### PGP encryption (`src/pgp.rs`) -/

/-- One (sub)key of a certificate, with the validity attributes the
key-selection loop of `encrypt` inspects. -/
structure PgpKey where
  alive : Bool
  revoked : Bool
  transportEncryption : Bool
  supported : Bool
  expirationTime : Option Nat
deriving DecidableEq, Repr

/-- A certificate together with its keys. -/
structure Cert where
  name : String
  keys : List PgpKey
deriving DecidableEq, Repr

/-- Environment for `pgp::encrypt`: keybox parsing, the keyring query
per recipient, the fallible armorer/encryptor/writer constructions, and
the resulting ciphertext. -/
structure PgpEnv where
  parseKeybox : String → Except ErrChain (List Cert)
  selectUserid : String → Except String (List Cert)
  armorOk : Except String Unit
  encryptorOk : Except String Unit
  literalOk : Except String Unit
  writeOk : Except String Unit
  finalizeOk : Except String Unit
  cipher : List Nat → List PgpKey → List Nat

/-- `find_recipient_certs` from `src/pgp.rs`.  The context string keeps
the source's literal braces (it is not interpolated there). -/
def find_recipient_certs (env : PgpEnv) : List String → Except ErrChain (List Cert)
  | [] => Except.ok []
  | r :: rest =>
    match env.selectUserid r with
    | .error e =>
      Except.error ["failed to find recipient `\x7brecipient\x7d` in keyring", e]
    | .ok certs =>
      match find_recipient_certs env rest with
      | .error e => Except.error e
      | .ok more => Except.ok (certs ++ more)

/-- A key passing the strict selection: alive, unrevoked, flagged for
transport encryption and supported. -/
def keySuitable (k : PgpKey) : Bool :=
  k.alive && !k.revoked && k.transportEncryption && k.supported

/-- The relaxed selection used for the expiry diagnostic (no `alive`
filter). -/
def keyRelaxed (k : PgpKey) : Bool :=
  !k.revoked && k.transportEncryption && k.supported

/-- The per-certificate key-selection step of `encrypt`: collect the
suitable subkeys, or diagnose why there are none. -/
def checkCert (cert : Cert) : Except ErrChain (List PgpKey) :=
  let good := cert.keys.filter keySuitable
  if good.length > 0 then Except.ok good
  else
    let cands := cert.keys.filter keyRelaxed
    if cands.any (fun k => k.expirationTime.isNone) then
      Except.error ["key does not have an expiration time"]
    else if !cands.isEmpty then
      Except.error ["the last suitable encryption key of cert `" ++ cert.name ++ "` expired"]
    else
      Except.error ["certificate `" ++ cert.name ++ "` has no suitable encryption key"]

/-- Key selection over all recipient certificates, in order. -/
def collectSubkeys : List Cert → Except ErrChain (List PgpKey)
  | [] => Except.ok []
  | c :: rest =>
    match checkCert c with
    | .error e => Except.error e
    | .ok ks =>
      match collectSubkeys rest with
      | .error e => Except.error e
      | .ok more => Except.ok (ks ++ more)

/-- `encrypt` from `src/pgp.rs`: reject an empty recipient list, parse
the keybox, find the recipient certificates, select encryption subkeys,
then build the armorer/encryptor/literal-writer stack and produce the
ciphertext. -/
def pgp_encrypt (env : PgpEnv) (message : List Nat) (keybox : String)
    (recipients : List String) : Except ErrChain (List Nat) :=
  if recipients.isEmpty then Except.error ["no recipients given"]
  else
    match env.parseKeybox keybox with
    | .error e => Except.error e
    | .ok certs0 =>
      match find_recipient_certs env recipients with
      | .error e => Except.error e
      | .ok certs =>
        match collectSubkeys certs with
        | .error e => Except.error e
        | .ok subkeys =>
          match env.armorOk with
          | .error e => Except.error ["failed to create ASCII armorer", e]
          | .ok _ =>
            match env.encryptorOk with
            | .error e => Except.error ["failed to create encryptor", e]
            | .ok _ =>
              match env.literalOk with
              | .error e => Except.error ["failed to create literal writer", e]
              | .ok _ =>
                match env.writeOk with
                | .error e => Except.error ["failed to write input to literal writer", e]
                | .ok _ =>
                  match env.finalizeOk with
                  | .error e => Except.error ["failed to encrypt", e]
                  | .ok _ =>
                    let _ := certs0
                    Except.ok (env.cipher message subkeys)

/-! ### CLI entry slice (`cli/src/main.rs`) -/

/-- The CLI configuration (`cli/src/config.rs`), after deserialization. -/
structure CliConfig where
  accounts : List Account
  recipients : List String
  pgp_keybox : Option String
  filters : List (String × List String)

/-- The part of `run_impl` from `cli/src/main.rs` after the
configuration is loaded: reject an empty account pool, run the message
through the filter pipeline, then hand over to `send_email`. -/
def run_impl_model (penv : PEnv) (senv : Env) (sched : List TaskId)
    (cfg : CliConfig) (path : String) (message : List Nat)
    (subject : Option String) (content_type : Option String) :
    Except ErrChain Unit × List Call :=
  if cfg.accounts.isEmpty then
    (Except.error ["no email accounts configured in `" ++ path ++ "`"], [])
  else
    match (pipelineRun penv message cfg.filters sched).result with
    | .error e => (Except.error ("failed to apply filters to message" :: e), [])
    | .ok filtered =>
      send_email senv cfg.accounts (subject.getD "") filtered content_type
        cfg.recipients ⟨cfg.pgp_keybox⟩

/-! ### Concrete instances used by witnesses and counterexamples -/

/-- An environment in which every collaborator succeeds. -/
def envAllOk : Env where
  parseMailbox := fun _ => Except.ok ()
  parseContentType := fun _ => Except.ok ()
  buildRelay := fun _ => Except.ok ()
  mimeFormat := fun _ b => b
  encryptFn := fun m _ _ => Except.ok m
  utf8Decode := fun _ => Except.ok "decoded"
  buildMessage := fun _ => Except.ok ()
  send := fun _ _ => Except.ok ()

/-- An environment in which every transport send fails. -/
def envSendFail : Env :=
  { envAllOk with send := fun a _ => Except.error ("send failure for " ++ a.smtp_host) }

/-- An environment in which sending fails exactly via host `h1`. -/
def envSendFailH1 : Env :=
  { envAllOk with
    send := fun a _ => if a.smtp_host = "h1" then Except.error "boom1" else Except.ok () }

/-- An environment in which encryption always fails. -/
def envEncFail : Env :=
  { envAllOk with encryptFn := fun _ _ _ => Except.error "no usable key" }

/-- Sample accounts. -/
def accA : Account := ⟨"h1", SmtpMode.Unencrypted, "a@x", "ua", "pa"⟩

def accB : Account := ⟨"h2", SmtpMode.Tls, "b@x", "ub", "pb"⟩

def accC : Account := ⟨"h3", SmtpMode.StartTls, "c@x", "uc", "pc"⟩

/-- A pipeline environment in which everything succeeds. -/
def penvAllOk : PEnv where
  spawnResult := fun _ => Except.ok ()
  procs := fun _ => ⟨Except.ok (), ⟨ExitStatus.exited 0, ""⟩⟩
  writeResult := Except.ok ()
  readResult := Except.ok ()
  readOutput := [9]

/-- A pipeline environment in which process 0 exits with status 1. -/
def penvFail0 : PEnv :=
  { penvAllOk with
    procs := fun i =>
      if i == 0 then ⟨Except.ok (), ⟨ExitStatus.exited 1, ""⟩⟩
      else ⟨Except.ok (), ⟨ExitStatus.exited 0, ""⟩⟩ }

/-- A two-stage chain whose first stage fails. -/
def chainTwo : List (String × List String) := [("false", []), ("tr", ["o", "e"])]

/-- A completion schedule observing the faulting waiter first. -/
def schedTwo : List TaskId := [TaskId.waiter 0, TaskId.writer, TaskId.reader, TaskId.waiter 1]

/-! ### Helper lemmas -/

/-- If every address parses, the recipient loop succeeds. -/
theorem parseRecipients_ok (env : Env) (hpm : env.parseMailbox = fun _ => Except.ok ()) :
    ∀ l : List String, parseRecipients env l = Except.ok () := by
  intro l
  induction l with
  | nil => rfl
  | cons r rest ih => simp [parseRecipients, hpm, ih]

/-- If relay construction succeeds, the mailer is built for any mode. -/
theorem buildMailer_ok (env : Env) (hbr : env.buildRelay = fun _ => Except.ok ()) :
    ∀ a : Account, buildMailer env a = Except.ok () := by
  intro a
  cases hm : a.smtp_mode <;> simp [buildMailer, hbr, hm]

/-- With parsing, relay and message assembly succeeding, no keybox, and a
transport that fails with `ferr`, a delivery attempt fails with the
send-context chain. -/
theorem try_fail_send (env : Env) (ferr : Account → String)
    (hpm : env.parseMailbox = fun _ => Except.ok ())
    (hbr : env.buildRelay = fun _ => Except.ok ())
    (hbm : env.buildMessage = fun _ => Except.ok ())
    (hsend : env.send = fun a _ => Except.error (ferr a)) :
    ∀ (a : Account) (s : String) (m : List Nat) (r : List String),
      (try_send_email env a s m none r ⟨none⟩).fst =
        Except.error ["failed to send email via " ++ a.smtp_host, ferr a] := by
  intro a s m r
  cases hu : env.utf8Decode m <;>
    simp [try_send_email, hpm, hbr, hbm, hsend, hu, parseRecipients_ok env hpm,
      buildMailer_ok env hbr]

/-- The account loop under an accumulated error, when every account's
primary attempt fails with `tryErr`: each new failure's display message
is pushed onto the chain, newest outermost. -/
theorem sendLoop_all_fail (env : Env) (subject : String) (message : List Nat)
    (ct : Option String) (recipients : List String) (opts : EmailOpts)
    (tryErr : Account → ErrChain) (l : List Account)
    (hfail : ∀ x ∈ l, (try_send_email env x subject message ct recipients opts).fst =
      Except.error (tryErr x)) :
    ∀ acc : ErrChain,
      (sendLoop env subject message ct recipients opts l (Except.error acc)).fst =
        Except.error (l.reverse.map (fun x => errDisplay (tryErr x)) ++ acc) := by
  induction l with
  | nil => intro acc; simp [sendLoop]
  | cons a rest ih =>
    intro acc
    have ha := hfail a (List.mem_cons_self a rest)
    have ih2 := ih (fun x hx => hfail x (List.mem_cons_of_mem a hx))
    simp only [sendLoop, ha, ih2]
    simp [errDisplay, ha]

/-- `send_email` when every account's primary attempt fails: the final
chain is the display of each failure, most recently tried first,
followed by the full chain of the first account's failure. -/
theorem send_email_all_fail (env : Env) (subject : String) (message : List Nat)
    (ct : Option String) (recipients : List String) (opts : EmailOpts)
    (tryErr : Account → ErrChain) (a : Account) (rest : List Account)
    (hfail : ∀ x ∈ a :: rest, (try_send_email env x subject message ct recipients opts).fst =
      Except.error (tryErr x)) :
    (send_email env (a :: rest) subject message ct recipients opts).fst =
      Except.error (rest.reverse.map (fun x => errDisplay (tryErr x)) ++ tryErr a) := by
  have ha := hfail a (List.mem_cons_self a rest)
  have hrest := sendLoop_all_fail env subject message ct recipients opts tryErr rest
    (fun x hx => hfail x (List.mem_cons_of_mem a hx))
  simp only [send_email, sendLoop, ha, hrest]

/-- The primary-delivery accounts recorded in a call trace. -/
def primaryAccounts (tr : List Call) : List Account :=
  (tr.filter (fun c => c.kind == CallKind.primary)).map (fun c => c.account)

/-- When every account's primary attempt fails, the loop advances
through the whole visitation order: every account gets a primary
attempt. -/
theorem primaryAccounts_all_fail (env : Env) (subject : String) (message : List Nat)
    (ct : Option String) (recipients : List String) (opts : EmailOpts)
    (l : List Account)
    (hfail : ∀ x ∈ l, exOk (try_send_email env x subject message ct recipients opts).fst = false) :
    ∀ ov : Except ErrChain Unit,
      primaryAccounts (sendLoop env subject message ct recipients opts l ov).snd = l := by
  induction l with
  | nil => intro ov; simp [sendLoop, primaryAccounts]
  | cons a rest ih =>
    intro ov
    have ha := hfail a (List.mem_cons_self a rest)
    have ih2 := ih (fun x hx => hfail x (List.mem_cons_of_mem a hx))
    cases hr : (try_send_email env a subject message ct recipients opts).fst with
    | ok u => rw [hr] at ha; simp [exOk] at ha
    | error err =>
      cases ov with
      | ok u =>
        simp only [sendLoop, hr]
        simp [primaryAccounts]
        simpa [primaryAccounts] using ih2 (Except.error err)
      | error oerr =>
        simp only [sendLoop, hr]
        simp [primaryAccounts]
        simpa [primaryAccounts] using ih2 (Except.error (errDisplay err :: oerr))

/-! ### Claim C7 -/

/-- Claim C7: for every input byte sequence (including the empty one),
running the pipeline with an empty filter chain returns the input bytes
unchanged, spawns no process, and drives no task. -/
theorem c7_empty_chain_identity (env : PEnv) (input : List Nat) (sched : List TaskId) :
    pipelineRun env input [] sched = ⟨Except.ok input, 0, []⟩ := rfl

/-! ### Claim C9 -/

/-- Claim C9: for every plaintext message and keybox path, `encrypt`
called with an empty recipient list fails with "no recipients given" and
never produces ciphertext. -/
theorem c9_encrypt_empty_recipients (env : PgpEnv) (message : List Nat) (keybox : String) :
    pgp_encrypt env message keybox [] = Except.error ["no recipients given"] ∧
      exOk (pgp_encrypt env message keybox []) = false :=
  ⟨rfl, rfl⟩

/-! ### Claim C6 -/

/-- Claim C6 counterexample: the library's delivery operation
`send_email`, called with an empty account pool, returns success without
making any delivery attempt — the claimed immediate configuration error
does not happen there, and the empty pool is a silent success. -/
theorem c6_counterexample :
    send_email envAllOk [] "subject" [1] none ["r@x"] ⟨none⟩ = (Except.ok (), []) := rfl

/-- Claim C6 (amended): the empty-pool configuration error is raised by
the CLI entry point before any delivery attempt (its call trace is
empty), while the library's `send_email` itself treats an empty pool as
a silent success with no attempt made. -/
theorem c6_amended (penv : PEnv) (senv : Env) (sched : List TaskId)
    (cfg : CliConfig) (path : String) (message : List Nat)
    (subject : Option String) (content_type : Option String)
    (h : cfg.accounts = []) :
    run_impl_model penv senv sched cfg path message subject content_type =
      (Except.error ["no email accounts configured in `" ++ path ++ "`"], []) ∧
    ∀ (env : Env) (s : String) (m : List Nat) (c : Option String)
      (r : List String) (o : EmailOpts),
      send_email env [] s m c r o = (Except.ok (), []) := by
  constructor
  · simp [run_impl_model, h]
  · intro env s m c r o
    rfl

/-- Claim C6 witness: the amended statement at a concrete configuration
with an empty account pool. -/
theorem c6_amended_witness :
    run_impl_model penvAllOk envAllOk [] ⟨[], ["r@x"], none, []⟩ "/etc/maily/config.json"
        [1] none none =
      (Except.error ["no email accounts configured in `/etc/maily/config.json`"], []) ∧
    send_email envAllOk [] "s" [1] none ["r@x"] ⟨none⟩ = (Except.ok (), []) := by
  have h := c6_amended penvAllOk envAllOk [] ⟨[], ["r@x"], none, []⟩ "/etc/maily/config.json"
    [1] none none rfl
  exact ⟨h.1, h.2 envAllOk "s" [1] none ["r@x"] ⟨none⟩⟩

/-! ### Claim C2 -/

/-- Claim C2 counterexample: with two accounts (hosts `h1` then `h2`)
both failing, the reported error's chain lists the per-account causes
newest first — `h2`'s cause precedes `h1`'s — not oldest first as
claimed. -/
theorem c2_counterexample :
    (send_email envSendFail [accA, accB] "subj" [1] none ["r@x"] ⟨none⟩).fst =
      Except.error
        ["failed to send email via h2", "failed to send email via h1",
          "send failure for h1"] ∧
    ["failed to send email via h2", "failed to send email via h1"] ≠
      ["failed to send email via h1", "failed to send email via h2"] :=
  ⟨rfl, by decide⟩

/-- Claim C2 (amended): for every non-empty visitation order in which
every account's primary attempt fails, the reported error's chain
carries exactly one cause per account — the display message of that
account's failure — ordered with the most recently tried account
outermost (the oldest failure is the innermost), followed by the full
cause chain of the first-tried account's failure. -/
theorem c2_amended (env : Env) (ferr : Account → String)
    (subject : String) (message : List Nat) (recipients : List String)
    (a : Account) (rest : List Account)
    (hpm : env.parseMailbox = fun _ => Except.ok ())
    (hbr : env.buildRelay = fun _ => Except.ok ())
    (hbm : env.buildMessage = fun _ => Except.ok ())
    (hsend : env.send = fun x _ => Except.error (ferr x)) :
    (send_email env (a :: rest) subject message none recipients ⟨none⟩).fst =
      Except.error
        (rest.reverse.map (fun x => "failed to send email via " ++ x.smtp_host) ++
          ["failed to send email via " ++ a.smtp_host, ferr a]) := by
  have hfail : ∀ x ∈ a :: rest,
      (try_send_email env x subject message none recipients ⟨none⟩).fst =
        Except.error ["failed to send email via " ++ x.smtp_host, ferr x] :=
    fun x _ => try_fail_send env ferr hpm hbr hbm hsend x subject message recipients
  have h := send_email_all_fail env subject message none recipients ⟨none⟩
    (fun x => ["failed to send email via " ++ x.smtp_host, ferr x]) a rest hfail
  simpa [errDisplay] using h

/-- Claim C2 witness: the amended statement at a concrete environment
and two concrete accounts. -/
theorem c2_amended_witness :
    (send_email envSendFail [accA, accB] "subj" [1] none ["r@x"] ⟨none⟩).fst =
      Except.error
        ["failed to send email via h2", "failed to send email via h1",
          "send failure for h1"] := by
  have h := c2_amended envSendFail (fun x => "send failure for " ++ x.smtp_host)
    "subj" [1] ["r@x"] accA [accB] rfl rfl rfl rfl
  simpa [accA, accB] using h

/-! ### Claim C1 -/

/-- When spawning always succeeds, the spawn loop spawns one process per
stage. -/
theorem spawnGo_ok (env : PEnv) (hspawn : env.spawnResult = fun _ => Except.ok ()) :
    ∀ (i : Nat) (l : List (String × List String)), spawnGo env i l = (Except.ok (), l.length) := by
  intro i l
  induction l generalizing i with
  | nil => rfl
  | cons c rest ih =>
    obtain ⟨cmd, args⟩ := c
    simp [spawnGo, hspawn, ih (i + 1)]

/-- When every scheduled task succeeds, all completions are observed. -/
theorem observeTasks_all_ok (res : TaskId → Except ErrChain Unit) (l : List TaskId)
    (h : ∀ t ∈ l, exOk (res t) = true) :
    observeTasks res l = (Except.ok (), l) := by
  induction l with
  | nil => rfl
  | cons t rest ih =>
    have ht := h t (List.mem_cons_self t rest)
    cases hr : res t with
    | error e => rw [hr] at ht; simp [exOk] at ht
    | ok u =>
      simp [observeTasks, hr, ih (fun x hx => h x (List.mem_cons_of_mem t hx))]

/-- The first erroring task in schedule order determines the result, and
observation stops right after it. -/
theorem observeTasks_first_error (res : TaskId → Except ErrChain Unit)
    (pre : List TaskId) (t : TaskId) (post : List TaskId) (e : ErrChain)
    (hpre : ∀ u ∈ pre, exOk (res u) = true) (ht : res t = Except.error e) :
    observeTasks res (pre ++ t :: post) = (Except.error e, pre ++ [t]) := by
  induction pre with
  | nil => simp [observeTasks, ht]
  | cons u rest ih =>
    have hu := hpre u (List.mem_cons_self u rest)
    cases hr : res u with
    | error e2 => rw [hr] at hu; simp [exOk] at hu
    | ok v =>
      simp [observeTasks, hr, ih (fun x hx => hpre x (List.mem_cons_of_mem u hx))]

/-- Claim C1 counterexample: a two-stage chain whose first stage exits
non-zero, with a schedule observing that waiter first.  Both processes
are spawned and the second waiter is scheduled, yet the pipeline returns
the first observed error with only the faulting waiter driven to
completion: the writer, reader and second process's waiter are cancelled
rather than driven, so a spawned process is not waited on. -/
theorem c1_counterexample :
    (pipelineRun penvFail0 [1, 2] chainTwo schedTwo).spawned = 2 ∧
    schedTwo.Perm (allTasks 2) ∧
    TaskId.waiter 1 ∈ schedTwo ∧
    (pipelineRun penvFail0 [1, 2] chainTwo schedTwo).driven = [TaskId.waiter 0] ∧
    TaskId.waiter 1 ∉ (pipelineRun penvFail0 [1, 2] chainTwo schedTwo).driven ∧
    (pipelineRun penvFail0 [1, 2] chainTwo schedTwo).result =
      Except.error ["`false` reported non-zero exit-status (1)"] := by
  refine ⟨rfl, by decide, by decide, rfl, by decide, rfl⟩

/-- Claim C1 (amended): all pipeline tasks (writer, reader, one waiter
per spawned process) run concurrently, and the first error observed in
completion order becomes the pipeline's reported error; when no task
faults every task is driven to completion before the pipeline returns,
but on the first observed fault the pipeline returns immediately,
driving only the completions observed up to and including the faulting
task — later tasks, including process waiters, are dropped. -/
theorem c1_amended (env : PEnv) (input : List Nat) (c0 : String × List String)
    (cs : List (String × List String)) (sched : List TaskId)
    (hspawn : env.spawnResult = fun _ => Except.ok ()) :
    ((∀ t ∈ sched, exOk (taskResult env (c0 :: cs) t) = true) →
      pipelineRun env input (c0 :: cs) sched =
        ⟨Except.ok env.readOutput, (c0 :: cs).length, sched⟩) ∧
    (∀ (pre : List TaskId) (t : TaskId) (post : List TaskId) (e : ErrChain),
      sched = pre ++ t :: post →
      (∀ u ∈ pre, exOk (taskResult env (c0 :: cs) u) = true) →
      taskResult env (c0 :: cs) t = Except.error e →
      pipelineRun env input (c0 :: cs) sched =
        ⟨Except.error e, (c0 :: cs).length, pre ++ [t]⟩) := by
  constructor
  · intro h
    simp [pipelineRun, spawnGo_ok env hspawn,
      observeTasks_all_ok (taskResult env (c0 :: cs)) sched h]
  · intro pre t post e hs hpre ht
    subst hs
    simp [pipelineRun, spawnGo_ok env hspawn,
      observeTasks_first_error (taskResult env (c0 :: cs)) pre t post e hpre ht]

/-- Claim C1 witness: the amended statement at concrete environments —
an all-success run drives every task, and a run whose first observed
completion faults reports that error having driven only it. -/
theorem c1_amended_witness :
    pipelineRun penvAllOk [1, 2] chainTwo schedTwo =
      ⟨Except.ok [9], 2, schedTwo⟩ ∧
    pipelineRun penvFail0 [1, 2] chainTwo schedTwo =
      ⟨Except.error ["`false` reported non-zero exit-status (1)"], 2, [TaskId.waiter 0]⟩ := by
  constructor
  · exact (c1_amended penvAllOk [1, 2] ("false", []) [("tr", ["o", "e"])] schedTwo rfl).1
      (by decide)
  · exact (c1_amended penvFail0 [1, 2] ("false", []) [("tr", ["o", "e"])] schedTwo rfl).2
      [] (TaskId.waiter 0) [TaskId.writer, TaskId.reader, TaskId.waiter 1]
      ["`false` reported non-zero exit-status (1)"] rfl (by decide) (by decide)

/-! ### Claim C8 -/

/-- Claim C8: a stage is faulted iff its exit status is non-zero or it
was terminated by a signal; the fault message names the space-joined
command line, then the exit code in parentheses (or "terminated by
signal"), then — when the trimmed captured stderr is non-empty — that
text after a colon.  A waiter task whose `wait` succeeds faults exactly
as `evaluate` does on the captured output. -/
theorem c8_exit_status_evaluation (o : Output) (cmd : String) (args : List String)
    (chain : List (String × List String)) (env : PEnv) (i : Nat) :
    (evaluate o cmd args = Except.ok () ↔ o.status = ExitStatus.exited 0) ∧
    (∀ c : Int, o.status = ExitStatus.exited c → c ≠ 0 →
      evaluate o cmd args =
        Except.error
          ["`" ++ format_command cmd args ++ "` reported non-zero exit-status (" ++
            toString c ++ ")" ++
            (if trimEnd o.stderr ≠ "" then ": " ++ trimEnd o.stderr else "")]) ∧
    (o.status = ExitStatus.signaled →
      evaluate o cmd args =
        Except.error
          ["`" ++ format_command cmd args ++
            "` reported non-zero exit-status (terminated by signal)" ++
            (if trimEnd o.stderr ≠ "" then ": " ++ trimEnd o.stderr else "")]) ∧
    (chain[i]? = some (cmd, args) → (env.procs i).waitResult = Except.ok () →
      taskResult env chain (TaskId.waiter i) = evaluate (env.procs i).output cmd args) := by
  refine ⟨?_, ?_, ?_, ?_⟩
  · cases hs : o.status with
    | exited c =>
      by_cases hc : c = 0
      · subst hc; simp [evaluate, hs, ExitStatus.success]
      · simp [evaluate, hs, ExitStatus.success, hc]
    | signaled => simp [evaluate, hs, ExitStatus.success]
  · intro c hs hc
    have h1 : ∀ s : String,
        "` reported non-zero exit-status" ++ (" (" ++ s) =
          "` reported non-zero exit-status (" ++ s := fun _ => rfl
    simp [evaluate, hs, ExitStatus.success, ExitStatus.exitCode, hc, String.append_assoc, h1]
  · intro hs
    have h2 : ∀ s : String,
        "` reported non-zero exit-status" ++ (" (terminated by signal)" ++ s) =
          "` reported non-zero exit-status (terminated by signal)" ++ s := fun _ => rfl
    simp [evaluate, hs, ExitStatus.success, ExitStatus.exitCode, String.append_assoc, h2]
  · intro hget hwait
    simp [taskResult, hget, hwait]

/-- Claim C8 witness: the evaluation at a concrete faulting output with
non-empty stderr, and a concrete waiter task. -/
theorem c8_exit_status_evaluation_witness :
    evaluate ⟨ExitStatus.exited 1, "warn \n"⟩ "false" ["x"] =
      Except.error ["`false x` reported non-zero exit-status (1): warn"] ∧
    taskResult penvFail0 chainTwo (TaskId.waiter 0) =
      evaluate ⟨ExitStatus.exited 1, ""⟩ "false" [] := by
  constructor
  · have h := (c8_exit_status_evaluation ⟨ExitStatus.exited 1, "warn \n"⟩ "false" ["x"]
      chainTwo penvFail0 0).2.1 1 rfl (by decide)
    simpa using h
  · exact (c8_exit_status_evaluation ⟨ExitStatus.exited 1, ""⟩ "false" []
      chainTwo penvFail0 0).2.2.2 rfl rfl

/-! ### Claims C3 and C10: the Degraded-state notification -/

/-- In Degraded state the trace begins with the best-effort notification
call: fixed subject "email error", body the Debug rendering of the error
accumulated so far, default (absent) content type, the same recipients,
and whatever result/events the attempt produced. -/
theorem sendLoop_error_head (env : Env) (subject : String) (message : List Nat)
    (ct : Option String) (recipients : List String) (opts : EmailOpts)
    (a : Account) (rest : List Account) (err : ErrChain) :
    ∃ tail,
      (sendLoop env subject message ct recipients opts (a :: rest) (Except.error err)).snd =
        { kind := CallKind.notification, account := a, subject := "email error",
          message := strToBytes (debugRender err), content_type := none,
          recipients := recipients,
          result := (try_send_email env a "email error" (strToBytes (debugRender err))
            none recipients opts).fst,
          events := (try_send_email env a "email error" (strToBytes (debugRender err))
            none recipients opts).snd } :: tail := by
  refine ⟨((sendLoop env subject message ct recipients opts (a :: rest)
    (Except.error err)).snd).tail, ?_⟩
  cases hr : (try_send_email env a subject message ct recipients opts).fst with
  | ok u => simp [sendLoop, hr]
  | error e => simp [sendLoop, hr]

/-- Reference definition following the spec's words: the delivery loop
outcome with the best-effort notification sends omitted entirely. -/
def sendLoopSpecNoNotif (env : Env) (subject : String) (message : List Nat)
    (ct : Option String) (recipients : List String) (opts : EmailOpts) :
    List Account → Except ErrChain Unit → Except ErrChain Unit
  | [], ov => ov
  | a :: rest, ov =>
    match (try_send_email env a subject message ct recipients opts).fst with
    | .ok _ => Except.ok ()
    | .error err =>
      sendLoopSpecNoNotif env subject message ct recipients opts rest
        (match ov with
          | .error oerr => Except.error (errDisplay err :: oerr)
          | .ok _ => Except.error err)

/-- Claim C3: every account visited after at least one failure first
receives a best-effort notification attempt — subject "email error",
body the human-readable rendering of the error accumulated so far, the
same recipient list — while in Clean state the first call is the primary
delivery; and the notification attempt's outcome is discarded: the
loop's result (success, recorded failures and aggregation) is exactly
that of the notification-free reference loop. -/
theorem c3_notification_best_effort (env : Env) (subject : String) (message : List Nat)
    (ct : Option String) (recipients : List String) (opts : EmailOpts) :
    (∀ (a : Account) (rest : List Account) (err : ErrChain),
      ∃ tail,
        (sendLoop env subject message ct recipients opts (a :: rest)
            (Except.error err)).snd =
          { kind := CallKind.notification, account := a, subject := "email error",
            message := strToBytes (debugRender err), content_type := none,
            recipients := recipients,
            result := (try_send_email env a "email error" (strToBytes (debugRender err))
              none recipients opts).fst,
            events := (try_send_email env a "email error" (strToBytes (debugRender err))
              none recipients opts).snd } :: tail) ∧
    (∀ (a : Account) (rest : List Account),
      ((sendLoop env subject message ct recipients opts (a :: rest)
          (Except.ok ())).snd.head?.map Call.kind) = some CallKind.primary) ∧
    (∀ (l : List Account) (ov : Except ErrChain Unit),
      (sendLoop env subject message ct recipients opts l ov).fst =
        sendLoopSpecNoNotif env subject message ct recipients opts l ov) := by
  refine ⟨fun a rest err => sendLoop_error_head env subject message ct recipients opts
    a rest err, ?_, ?_⟩
  · intro a rest
    cases hr : (try_send_email env a subject message ct recipients opts).fst with
    | ok u => simp [sendLoop, hr]
    | error e => simp [sendLoop, hr]
  · intro l
    induction l with
    | nil => intro ov; rfl
    | cons a rest ih =>
      intro ov
      cases hr : (try_send_email env a subject message ct recipients opts).fst with
      | ok u => simp [sendLoop, sendLoopSpecNoNotif, hr]
      | error e =>
        cases ov with
        | ok v => simp [sendLoop, sendLoopSpecNoNotif, hr, ih]
        | error oerr => simp [sendLoop, sendLoopSpecNoNotif, hr, ih]

/-! ### Claim C4 -/

/-- The loop with a prefix of failing accounts followed by a succeeding
one: the succeeding account terminates the loop with success, and the
primary attempts are exactly the prefix plus the succeeding account. -/
theorem sendLoop_first_success (env : Env) (subject : String) (message : List Nat)
    (ct : Option String) (recipients : List String) (opts : EmailOpts)
    (pre : List Account) (aK : Account) (post : List Account)
    (hfail : ∀ x ∈ pre,
      exOk (try_send_email env x subject message ct recipients opts).fst = false)
    (hsucc : (try_send_email env aK subject message ct recipients opts).fst = Except.ok ()) :
    ∀ ov : Except ErrChain Unit,
      (sendLoop env subject message ct recipients opts (pre ++ aK :: post) ov).fst =
        Except.ok () ∧
      primaryAccounts
          (sendLoop env subject message ct recipients opts (pre ++ aK :: post) ov).snd =
        pre ++ [aK] := by
  induction pre with
  | nil =>
    intro ov
    cases ov with
    | ok u => constructor <;> simp [sendLoop, hsucc, primaryAccounts]
    | error oerr => constructor <;> simp [sendLoop, hsucc, primaryAccounts]
  | cons a rest ih =>
    intro ov
    have ha := hfail a (List.mem_cons_self a rest)
    have ih2 := ih (fun x hx => hfail x (List.mem_cons_of_mem a hx))
    cases hr : (try_send_email env a subject message ct recipients opts).fst with
    | ok u => rw [hr] at ha; simp [exOk] at ha
    | error err =>
      cases ov with
      | ok u =>
        have h2 := ih2 (Except.error err)
        constructor
        · simp [sendLoop, hr, h2.1]
        · simp only [sendLoop, hr]
          simp [primaryAccounts]
          simpa [primaryAccounts] using h2.2
      | error oerr =>
        have h2 := ih2 (Except.error (errDisplay err :: oerr))
        constructor
        · simp [sendLoop, hr, h2.1]
        · simp only [sendLoop, hr]
          simp [primaryAccounts]
          simpa [primaryAccounts] using h2.2

/-- Claim C4: if account K is the first of the visitation order whose
primary attempt succeeds, `send_email` returns success and the recorded
primary attempts are exactly the K−1 failing accounts followed by
account K — K attempts in order, none after the K-th. -/
theorem c4_first_success (env : Env) (subject : String) (message : List Nat)
    (ct : Option String) (recipients : List String) (opts : EmailOpts)
    (pre : List Account) (aK : Account) (post : List Account)
    (hfail : ∀ x ∈ pre,
      exOk (try_send_email env x subject message ct recipients opts).fst = false)
    (hsucc : (try_send_email env aK subject message ct recipients opts).fst = Except.ok ()) :
    (send_email env (pre ++ aK :: post) subject message ct recipients opts).fst =
      Except.ok () ∧
    primaryAccounts
        (send_email env (pre ++ aK :: post) subject message ct recipients opts).snd =
      pre ++ [aK] ∧
    (primaryAccounts
        (send_email env (pre ++ aK :: post) subject message ct recipients opts).snd).length =
      pre.length + 1 := by
  have h := sendLoop_first_success env subject message ct recipients opts pre aK post
    hfail hsucc (Except.ok ())
  refine ⟨h.1, h.2, ?_⟩
  simpa [send_email] using congrArg List.length h.2

/-- Claim C4 witness: with hosts `h1`, `h2`, `h3` where only `h1` fails,
delivery succeeds after exactly the two attempts `h1`, `h2`; `h3` is
never tried. -/
theorem c4_first_success_witness :
    (send_email envSendFailH1 [accA, accB, accC] "subj" [1] none ["r@x"] ⟨none⟩).fst =
      Except.ok () ∧
    primaryAccounts
        (send_email envSendFailH1 [accA, accB, accC] "subj" [1] none ["r@x"] ⟨none⟩).snd =
      [accA, accB] ∧
    (primaryAccounts
        (send_email envSendFailH1 [accA, accB, accC] "subj" [1] none
          ["r@x"] ⟨none⟩).snd).length = 2 := by
  have h := c4_first_success envSendFailH1 "subj" [1] none ["r@x"] ⟨none⟩
    [accA] accB [accC]
    (by intro x hx; rw [List.mem_singleton] at hx; subst hx; rfl) rfl
  exact h

/-! ### Claim C5 -/

/-- The content type resolved by `try_send_email` when parsing succeeds:
the configured one, defaulting to `text/plain`. -/
def resolveCt (ct : Option String) : String := ct.getD "text/plain"

/-- Whether an event is a call into the encryption collaborator. -/
def isEncryptCall : Event → Bool
  | .encryptCall _ _ _ => true
  | .sendCall _ _ => false

/-- With parsing and relay construction succeeding but encryption
failing with `e`, every attempt that carries a keybox fails with the
encrypt-context chain. -/
theorem try_fail_encrypt (env : Env) (e k : String)
    (hpm : env.parseMailbox = fun _ => Except.ok ())
    (hbr : env.buildRelay = fun _ => Except.ok ())
    (henc : env.encryptFn = fun _ _ _ => Except.error e) :
    ∀ (a : Account) (s : String) (m : List Nat) (r : List String),
      (try_send_email env a s m none r ⟨some k⟩).fst =
        Except.error ["failed to encrypt message", e] := by
  intro a s m r
  simp [try_send_email, hpm, hbr, henc, parseRecipients_ok env hpm, buildMailer_ok env hbr]

/-- Claim C5 counterexample: with a keybox configured, two accounts of
which the first fails to send, the (single) Degraded-state notification
attempt itself performs an encryption call — its body is passed through
the encryption step, contrary to the claim that only the primary body
is encrypted. -/
theorem c5_counterexample :
    ((send_email envSendFailH1 [accA, accB] "subj" [1] none ["r@x"] ⟨some "kb"⟩).snd.filter
        (fun c => c.kind == CallKind.notification)).map
        (fun c => (c.events.filter isEncryptCall).length) = [1] ∧
    (1 : Nat) ≠ 0 :=
  ⟨rfl, by decide⟩

/-- Claim C5 (amended): when a keybox is configured every message body
handed to `try_send_email` — the notification's as much as the
primary's — goes through the encryption step first (any non-empty event
trace starts with the encryption call on the MIME-wrapped body); and a
failure to encrypt is an ordinary delivery failure for that account:
the attempt fails with the encrypt context, the failure is recorded in
the aggregated chain, and the loop advances through every account. -/
theorem c5_amended (env : Env) (e k : String) (a : Account) (rest : List Account)
    (s : String) (m : List Nat) (recipients : List String)
    (hpm : env.parseMailbox = fun _ => Except.ok ())
    (hbr : env.buildRelay = fun _ => Except.ok ())
    (henc : env.encryptFn = fun _ _ _ => Except.error e) :
    (∀ (env2 : Env) (a2 : Account) (s2 : String) (m2 : List Nat)
      (ct : Option String) (r2 : List String) (k2 : String),
      (try_send_email env2 a2 s2 m2 ct r2 ⟨some k2⟩).snd = [] ∨
      ∃ tail, (try_send_email env2 a2 s2 m2 ct r2 ⟨some k2⟩).snd =
        Event.encryptCall (env2.mimeFormat (resolveCt ct) m2) k2 r2 :: tail) ∧
    (try_send_email env a s m none recipients ⟨some k⟩).fst =
      Except.error ["failed to encrypt message", e] ∧
    (send_email env (a :: rest) s m none recipients ⟨some k⟩).fst =
      Except.error
        (List.replicate rest.length "failed to encrypt message" ++
          ["failed to encrypt message", e]) ∧
    primaryAccounts (send_email env (a :: rest) s m none recipients ⟨some k⟩).snd =
      a :: rest := by
  have htry := try_fail_encrypt env e k hpm hbr henc
  refine ⟨?_, htry a s m recipients, ?_, ?_⟩
  · intro env2 a2 s2 m2 ct r2 k2
    cases h1 : env2.parseMailbox a2.fromAddr with
    | error e1 => left; simp [try_send_email, h1]
    | ok u1 =>
      cases ct with
      | none =>
        cases h2 : parseRecipients env2 r2 with
        | error e2 => left; simp [try_send_email, h1, h2]
        | ok u2 =>
          cases h3 : buildMailer env2 a2 with
          | error e3 => left; simp [try_send_email, h1, h2, h3]
          | ok u3 =>
            right
            refine ⟨((try_send_email env2 a2 s2 m2 none r2 ⟨some k2⟩).snd).tail, ?_⟩
            cases h4 : env2.encryptFn (env2.mimeFormat "text/plain" m2) k2 r2 with
            | error e4 => simp [try_send_email, h1, h2, h3, h4, resolveCt]
            | ok armored =>
              cases h5 : env2.utf8Decode armored with
              | error e5 => simp [try_send_email, h1, h2, h3, h4, h5, resolveCt]
              | ok dec =>
                cases h6 : env2.parseContentType "application/pgp-encrypted" with
                | error e6 => simp [try_send_email, h1, h2, h3, h4, h5, h6, resolveCt]
                | ok u6 =>
                  cases h7 : env2.parseContentType
                      "application/octet-stream; name=\"encrypted.asc\"" with
                  | error e7 =>
                    simp [try_send_email, h1, h2, h3, h4, h5, h6, h7, resolveCt]
                  | ok u7 =>
                    cases h8 : env2.buildMessage
                        ⟨a2.fromAddr, s2, r2, "text/plain", EmailBody.encrypted dec⟩ with
                    | error e8 =>
                      simp [try_send_email, h1, h2, h3, h4, h5, h6, h7, h8, resolveCt]
                    | ok u8 =>
                      cases h9 : env2.send a2
                          ⟨a2.fromAddr, s2, r2, "text/plain", EmailBody.encrypted dec⟩ with
                      | error e9 =>
                        simp [try_send_email, h1, h2, h3, h4, h5, h6, h7, h8, h9, resolveCt]
                      | ok u9 =>
                        simp [try_send_email, h1, h2, h3, h4, h5, h6, h7, h8, h9, resolveCt]
      | some ctv =>
        cases hc : env2.parseContentType ctv with
        | error ec => left; simp [try_send_email, h1, hc]
        | ok uc =>
          cases h2 : parseRecipients env2 r2 with
          | error e2 => left; simp [try_send_email, h1, hc, h2]
          | ok u2 =>
            cases h3 : buildMailer env2 a2 with
            | error e3 => left; simp [try_send_email, h1, hc, h2, h3]
            | ok u3 =>
              right
              refine ⟨((try_send_email env2 a2 s2 m2 (some ctv) r2 ⟨some k2⟩).snd).tail, ?_⟩
              cases h4 : env2.encryptFn (env2.mimeFormat ctv m2) k2 r2 with
              | error e4 => simp [try_send_email, h1, hc, h2, h3, h4, resolveCt]
              | ok armored =>
                cases h5 : env2.utf8Decode armored with
                | error e5 => simp [try_send_email, h1, hc, h2, h3, h4, h5, resolveCt]
                | ok dec =>
                  cases h6 : env2.parseContentType "application/pgp-encrypted" with
                  | error e6 => simp [try_send_email, h1, hc, h2, h3, h4, h5, h6, resolveCt]
                  | ok u6 =>
                    cases h7 : env2.parseContentType
                        "application/octet-stream; name=\"encrypted.asc\"" with
                    | error e7 =>
                      simp [try_send_email, h1, hc, h2, h3, h4, h5, h6, h7, resolveCt]
                    | ok u7 =>
                      cases h8 : env2.buildMessage
                          ⟨a2.fromAddr, s2, r2, ctv, EmailBody.encrypted dec⟩ with
                      | error e8 =>
                        simp [try_send_email, h1, hc, h2, h3, h4, h5, h6, h7, h8, resolveCt]
                      | ok u8 =>
                        cases h9 : env2.send a2
                            ⟨a2.fromAddr, s2, r2, ctv, EmailBody.encrypted dec⟩ with
                        | error e9 =>
                          simp [try_send_email, h1, hc, h2, h3, h4, h5, h6, h7, h8, h9, resolveCt]
                        | ok u9 =>
                          simp [try_send_email, h1, hc, h2, h3, h4, h5, h6, h7, h8, h9, resolveCt]
  · have hfail : ∀ x ∈ a :: rest,
        (try_send_email env x s m none recipients ⟨some k⟩).fst =
          Except.error ["failed to encrypt message", e] :=
      fun x _ => htry x s m recipients
    have h := send_email_all_fail env s m none recipients ⟨some k⟩
      (fun _ => ["failed to encrypt message", e]) a rest hfail
    simpa [errDisplay, List.map_const] using h
  · exact primaryAccounts_all_fail env s m none recipients ⟨some k⟩ (a :: rest)
      (fun x _ => by rw [htry x s m recipients]; rfl) (Except.ok ())

/-- Claim C5 witness: the amended statement at a concrete environment in
which encryption fails, with two accounts. -/
theorem c5_amended_witness :
    (try_send_email envEncFail accA "s" [1] none ["r@x"] ⟨some "kb"⟩).fst =
      Except.error ["failed to encrypt message", "no usable key"] ∧
    (send_email envEncFail [accA, accB] "s" [1] none ["r@x"] ⟨some "kb"⟩).fst =
      Except.error
        ["failed to encrypt message", "failed to encrypt message", "no usable key"] ∧
    primaryAccounts
        (send_email envEncFail [accA, accB] "s" [1] none ["r@x"] ⟨some "kb"⟩).snd =
      [accA, accB] := by
  have h := c5_amended envEncFail "no usable key" "kb" accA [accB] "s" [1] ["r@x"]
    rfl rfl rfl
  exact ⟨h.2.1, h.2.2.1, h.2.2.2⟩

/-! ### Claim C10 -/

/-- The content type of a transport-send event, if any. -/
def eventCt : Event → Option String
  | .sendCall _ email => some email.contentType
  | .encryptCall _ _ _ => none

/-- Claim C10: a `try_send_email` call with no configured content type —
as every Degraded-state notification is — composes its message with the
default `text/plain` content type (every transport send in its trace
carries `text/plain`), and the notification call at the head of every
Degraded-state trace indeed passes no content type, whatever was
configured for the primary message. -/
theorem c10_notification_plain_text (env : Env) (a : Account) (s : String)
    (m : List Nat) (recipients : List String) (opts : EmailOpts) :
    (((try_send_email env a s m none recipients opts).snd.filterMap eventCt).all
      (fun c => c == "text/plain")) = true ∧
    (∀ (subject : String) (message : List Nat) (ct : Option String)
      (a2 : Account) (rest : List Account) (err : ErrChain),
      ((sendLoop env subject message ct recipients opts (a2 :: rest)
          (Except.error err)).snd.head?.map Call.content_type) = some none) := by
  constructor
  · cases h1 : env.parseMailbox a.fromAddr with
    | error e1 => simp [try_send_email, h1]
    | ok u1 =>
      cases h2 : parseRecipients env recipients with
      | error e2 => simp [try_send_email, h1, h2]
      | ok u2 =>
        cases h3 : buildMailer env a with
        | error e3 => simp [try_send_email, h1, h2, h3]
        | ok u3 =>
          cases hk : opts.pgp_keybox with
          | none =>
            cases hu : env.utf8Decode m with
            | ok dec =>
              cases h8 : env.buildMessage
                  ⟨a.fromAddr, s, recipients, "text/plain", EmailBody.plainString dec⟩ with
              | error e8 => simp [try_send_email, h1, h2, h3, hk, hu, h8, eventCt]
              | ok u8 =>
                cases h9 : env.send a
                    ⟨a.fromAddr, s, recipients, "text/plain", EmailBody.plainString dec⟩ with
                | error e9 => simp [try_send_email, h1, h2, h3, hk, hu, h8, h9, eventCt]
                | ok u9 => simp [try_send_email, h1, h2, h3, hk, hu, h8, h9, eventCt]
            | error eu =>
              cases h8 : env.buildMessage
                  ⟨a.fromAddr, s, recipients, "text/plain", EmailBody.plainBinary m⟩ with
              | error e8 => simp [try_send_email, h1, h2, h3, hk, hu, h8, eventCt]
              | ok u8 =>
                cases h9 : env.send a
                    ⟨a.fromAddr, s, recipients, "text/plain", EmailBody.plainBinary m⟩ with
                | error e9 => simp [try_send_email, h1, h2, h3, hk, hu, h8, h9, eventCt]
                | ok u9 => simp [try_send_email, h1, h2, h3, hk, hu, h8, h9, eventCt]
          | some kb =>
            cases h4 : env.encryptFn (env.mimeFormat "text/plain" m) kb recipients with
            | error e4 => simp [try_send_email, h1, h2, h3, hk, h4, eventCt]
            | ok armored =>
              cases h5 : env.utf8Decode armored with
              | error e5 => simp [try_send_email, h1, h2, h3, hk, h4, h5, eventCt]
              | ok dec =>
                cases h6 : env.parseContentType "application/pgp-encrypted" with
                | error e6 => simp [try_send_email, h1, h2, h3, hk, h4, h5, h6, eventCt]
                | ok u6 =>
                  cases h7 : env.parseContentType
                      "application/octet-stream; name=\"encrypted.asc\"" with
                  | error e7 => simp [try_send_email, h1, h2, h3, hk, h4, h5, h6, h7, eventCt]
                  | ok u7 =>
                    cases h8 : env.buildMessage
                        ⟨a.fromAddr, s, recipients, "text/plain", EmailBody.encrypted dec⟩ with
                    | error e8 =>
                      simp [try_send_email, h1, h2, h3, hk, h4, h5, h6, h7, h8, eventCt]
                    | ok u8 =>
                      cases h9 : env.send a
                          ⟨a.fromAddr, s, recipients, "text/plain",
                            EmailBody.encrypted dec⟩ with
                      | error e9 =>
                        simp [try_send_email, h1, h2, h3, hk, h4, h5, h6, h7, h8, h9, eventCt]
                      | ok u9 =>
                        simp [try_send_email, h1, h2, h3, hk, h4, h5, h6, h7, h8, h9, eventCt]
  · intro subject message ct a2 rest err
    obtain ⟨tail, htail⟩ :=
      sendLoop_error_head env subject message ct recipients opts a2 rest err
    simp [htail]

end Maily
